import Mathlib

/-!
Shallow embedding of the data source resolution cache (`dsCache` in
package `resolver`): the descriptor type `dsVal`, the rebuild `check`,
and the lookup `getDS`.  Go maps are modelled as association lists with
Go semantics (write replaces in place, read returns the stored value).
Go map iteration order is unspecified: the secondary indexing pass of
`check` therefore comes in two forms, one parameterized by an explicit
iteration order (`finalizeOrgWith`, `buildCacheWith`, `checkWith`),
which is the faithful model, and an insertion-order instance of it
(`finalizeOrg`, `buildCache`, `check`), convenient for the statements
whose truth does not depend on the order.  Time is modelled as an
integer number of seconds; Go's nil-able `error` is `Option String`;
the two collaborators (`datasources.DataSourceService.GetAllDataSources`
and `registry.Service.Plugin`) are modelled as an environment holding
the query outcome and the plugin-existence oracle.
-/

namespace Resolver

/-- A catalog record as reported by `GetAllDataSources`
(the fields of `datasources.DataSource` the resolver reads). -/
structure DataSource where
  id : Int
  orgId : Int
  uid : String
  name : String
  type : String
  isDefault : Bool
deriving DecidableEq, Repr

/-- `dsVal` from the source: the resolved descriptor stored in the cache. -/
structure dsVal where
  internalID : Int
  isDefault : Bool
  name : String
  type : String
  uid : String
  pluginExists : Bool
deriving DecidableEq, Repr

/-- Go map write `m[k] = v`: replace the value in place when the key is
present, append a fresh entry otherwise. -/
def mapSet {α β : Type} [DecidableEq α] : List (α × β) → α → β → List (α × β)
  | [], k, v => [(k, v)]
  | (k', v') :: rest, k, v =>
      if k' = k then (k, v) :: rest else (k', v') :: mapSet rest k v

/-- Go map read `v, ok := m[k]`. -/
def mapGet {α β : Type} [DecidableEq α] : List (α × β) → α → Option β
  | [], _ => none
  | (k', v') :: rest, k => if k' = k then some v' else mapGet rest k

/-- The `if !ok { m[k] = v }` idiom: write only when the key is absent. -/
def mapSetIfAbsent {α β : Type} [DecidableEq α]
    (m : List (α × β)) (k : α) (v : β) : List (α × β) :=
  match mapGet m k with
  | some _ => m
  | none => mapSet m k v

/-- A tenant's index: `map[string]*dsVal`. -/
abbrev OrgCache := List (String × dsVal)

/-- The snapshot under construction: `map[int64]map[string]*dsVal`. -/
abbrev Cache := List (Int × OrgCache)

/-- The collaborators of the cache: the Catalog Source query outcome
(`GetAllDataSources` either fails with an error or fills `q.Result`
with a list of records) and the Plugin Existence Oracle
(`pluginRegistry.Plugin`, of which only the `ok` result is read). -/
structure Env where
  catalog : Except String (List DataSource)
  pluginExists : String → Bool

/-- The mutable fields of `dsCache` that `check`/`getDS` read and write:
the snapshot (`nil`-able map) and the `timestamp` across all orgIDs. -/
structure CacheState where
  cache : Option Cache
  timestamp : Int
deriving DecidableEq, Repr

/-- `grafanads.DatasourceUID`, the fixed uid/name/type of the synthetic
built-in grafana data source. -/
def DatasourceUID : String := "grafana"

/-- The synthetic built-in descriptor `gds` registered for every org in
the snapshot; unset Go fields keep their zero values. -/
def gds : dsVal :=
  { internalID := 0, isDefault := false, name := DatasourceUID,
    type := DatasourceUID, uid := DatasourceUID, pluginExists := true }

/-- The `dsVal` the first loop of `check` builds from a catalog record,
with `PluginExists` resolved through the oracle. -/
def mkVal (env : Env) (ds : DataSource) : dsVal :=
  { internalID := ds.id, name := ds.name, uid := ds.uid,
    type := ds.type, isDefault := ds.isDefault,
    pluginExists := env.pluginExists ds.type }

/-- One iteration of the first loop of `check`: build the `dsVal` for a
record, file it in the org's index under its uid, and track the org's
default candidate. -/
def primaryStep (env : Env) (acc : Cache × List (Int × dsVal))
    (ds : DataSource) : Cache × List (Int × dsVal) :=
  let val := mkVal env ds
  let orgCache := (mapGet acc.1 ds.orgId).getD []
  let cache := mapSet acc.1 ds.orgId (mapSet orgCache val.uid val)
  let defaultDS :=
    if val.isDefault then mapSet acc.2 ds.orgId val else acc.2
  (cache, defaultDS)

/-- One iteration of the secondary indexing loop: file the record under
its stringified internal id and under its name, each only when that key
is not already occupied. -/
def secondaryStep (orgCache : OrgCache) (e : String × dsVal) : OrgCache :=
  let ds := e.2
  let withId := mapSetIfAbsent orgCache (toString ds.internalID) ds
  mapSetIfAbsent withId ds.name ds

/-- The per-org tail of `check`, with the iteration order of the
secondary indexing pass made explicit: Go ranges over the org's map in
an unspecified order (while mutating it), so `order` stands for the
sequence of entries the loop visits.  After the pass, the built-in
grafana data source is registered and the org's default is filed under
`""` and (if free) `"default"`. -/
def finalizeOrgWith (order : List (String × dsVal))
    (defaultDS : List (Int × dsVal)) (orgID : Int)
    (orgCache : OrgCache) : OrgCache :=
  let afterSecondary := List.foldl secondaryStep orgCache order
  let withGds := mapSet afterSecondary gds.uid gds
  let d := (mapGet defaultDS orgID).getD gds
  let withEmpty := mapSet withGds "" d
  match mapGet withEmpty "default" with
  | some _ => withEmpty
  | none => mapSet withEmpty "default" d

/-- `finalizeOrgWith` at one admissible iteration order: the entries
present when the loop starts, in insertion order.  Which record wins a
secondary-key collision depends on the order, so statements proved
against this instance hold for the program only when they do not
depend on that choice. -/
def finalizeOrg (defaultDS : List (Int × dsVal)) (orgID : Int)
    (orgCache : OrgCache) : OrgCache :=
  finalizeOrgWith orgCache defaultDS orgID orgCache

/-- The snapshot built from a successful catalog query when the
secondary pass of org `o`, whose primary index is `m`, visits the
entries `ord o m`: the first loop over `q.Result` followed by the
per-org finalization loop. -/
def buildCacheWith (ord : Int → OrgCache → List (String × dsVal))
    (env : Env) (records : List DataSource) : Cache :=
  let acc := List.foldl (primaryStep env) ([], []) records
  acc.1.map (fun p => (p.1, finalizeOrgWith (ord p.1 p.2) acc.2 p.1 p.2))

/-- The snapshot `check` builds from a successful catalog query, with
each org's secondary pass visiting its entries in insertion order
(one admissible Go iteration order). -/
def buildCache (env : Env) (records : List DataSource) : Cache :=
  let acc := List.foldl (primaryStep env) ([], []) records
  acc.1.map (fun p => (p.1, finalizeOrg acc.2 p.1 p.2))

/-- `dsCache.check`.  `old` is the timestamp captured before the mutex
was requested; `σ` is the state observed once the mutex is held (in a
sequential run the two agree, but a concurrent refresh may have changed
the state in between).  Returns the Go error, the state after the
critical section, and how many Catalog Source queries were issued.
The new timestamp is `getNow()`, passed in as `now`. -/
def check (old : Int) (σ : CacheState) (env : Env) (now : Int) :
    Option String × CacheState × Nat :=
  if σ.timestamp ≠ old then
    (none, σ, 0)
  else
    match env.catalog with
    | Except.error e => (some e, σ, 1)
    | Except.ok records =>
        (none, { cache := some (buildCache env records), timestamp := now }, 1)

/-- `check` as invoked in a run with no interleaved writer: the captured
timestamp is the one held at entry. -/
def checkSeq (σ : CacheState) (env : Env) (now : Int) :
    Option String × CacheState × Nat :=
  check σ.timestamp σ env now

/-- `dsCache.check` with the per-org iteration order of the secondary
pass explicit, as the faithful model of Go's unspecified map ranging. -/
def checkWith (ord : Int → OrgCache → List (String × dsVal)) (old : Int)
    (σ : CacheState) (env : Env) (now : Int) :
    Option String × CacheState × Nat :=
  if σ.timestamp ≠ old then
    (none, σ, 0)
  else
    match env.catalog with
    | Except.error e => (some e, σ, 1)
    | Except.ok records =>
        (none, { cache := some (buildCacheWith ord env records),
                 timestamp := now }, 1)

/-- `checkWith` as invoked in a run with no interleaved writer. -/
def checkSeqWith (ord : Int → OrgCache → List (String × dsVal))
    (σ : CacheState) (env : Env) (now : Int) :
    Option String × CacheState × Nat :=
  checkWith ord σ.timestamp σ env now

/-- Lookup of `uid` in the snapshot of `σ`: `c.cache[orgID][uid]`, with
Go's nil-map semantics when no snapshot exists. -/
def lookupSnap (σ : CacheState) (orgID : Int) (uid : String) : Option dsVal :=
  match σ.cache with
  | none => none
  | some cache =>
    match mapGet cache orgID with
    | none => none
    | some orgCache => mapGet orgCache uid

/-- `dsCache.getDS`: refresh when the snapshot is absent or more than a
minute old, then serve the lookup from whatever snapshot is held.  The
org id comes from the caller's context (`store.UserFromContext`).
Returns the descriptor, the Go error, the final state, and the number
of Catalog Source queries issued. -/
def getDS (σ : CacheState) (env : Env) (now : Int) (orgID : Int)
    (uid : String) : Option dsVal × Option String × CacheState × Nat :=
  let r :=
    if σ.cache = none ∨ σ.timestamp < now - 60 then
      check σ.timestamp σ env now
    else
      (none, σ, 0)
  let err := r.1
  let σ' := r.2.1
  let n := r.2.2
  match σ'.cache with
  | none => (none, err, σ', n)
  | some cache =>
    match mapGet cache orgID with
    | none => (none, err, σ', n)
    | some orgCache =>
      match mapGet orgCache uid with
      | none => (none, err, σ', n)
      | some ds => (some ds, err, σ', n)

/-- Specification-side description of the default candidate the first
loop of `check` tracks for org `T`: the descriptor of the last record
of `T` marked `isDefault`, when one exists. -/
def lastDefault (env : Env) (T : Int) : List DataSource → Option dsVal
  | [] => none
  | r :: rest =>
    match lastDefault env T rest with
    | some v => some v
    | none =>
      if r.orgId = T ∧ r.isDefault then some (mkVal env r) else none

/-! Concrete fixtures used by witnesses and counterexamples. -/

/-- The spec's scenario record for tenant 1. -/
def recAbc : DataSource :=
  { id := 7, orgId := 1, uid := "abc", name := "Prometheus",
    type := "prometheus", isDefault := true }

/-- A non-default record of tenant 1 whose name is literally `"default"`. -/
def recNamedDefault : DataSource :=
  { id := 3, orgId := 1, uid := "u3", name := "default",
    type := "x", isDefault := false }

/-- Catalog reporting only `recAbc`; only `prometheus` is installed. -/
def envOk : Env :=
  { catalog := Except.ok [recAbc], pluginExists := fun t => t == "prometheus" }

/-- Catalog reporting `recAbc` and `recNamedDefault`. -/
def envTwo : Env :=
  { catalog := Except.ok [recAbc, recNamedDefault],
    pluginExists := fun _ => true }

/-- Catalog whose query fails. -/
def envFail : Env :=
  { catalog := Except.error "boom", pluginExists := fun _ => true }

/-- Catalog reporting no records at all. -/
def envEmpty : Env :=
  { catalog := Except.ok [], pluginExists := fun _ => true }

/-- Cold-start state: no snapshot yet. -/
def initState : CacheState := { cache := none, timestamp := 0 }

/-- A fresh snapshot covering no tenant at all. -/
def freshEmptyState : CacheState := { cache := some [], timestamp := 100 }

/-- The snapshot built from `envOk`. -/
def popCache : Cache := buildCache envOk [recAbc]

/-- A state holding the `envOk` snapshot, built at time 0. -/
def popState : CacheState := { cache := some popCache, timestamp := 0 }

/-- Two records of tenant 1 sharing the name `"dup"`. -/
def recDupA : DataSource :=
  { id := 1, orgId := 1, uid := "a", name := "dup",
    type := "x", isDefault := false }

/-- See `recDupA`. -/
def recDupB : DataSource :=
  { id := 2, orgId := 1, uid := "b", name := "dup",
    type := "x", isDefault := false }

/-- Catalog reporting the two name-colliding records. -/
def envDup : Env :=
  { catalog := Except.ok [recDupA, recDupB], pluginExists := fun _ => true }

/-- One admissible Go iteration order: the entries present at loop
start, in insertion order. -/
def ordIns : Int → OrgCache → List (String × dsVal) := fun _ m => m

/-- Another admissible Go iteration order: the same entries reversed. -/
def ordRev : Int → OrgCache → List (String × dsVal) := fun _ m => m.reverse

/-! ## Basic facts about the Go-map model -/

theorem mapGet_mapSet_self {α β : Type} [DecidableEq α]
    (m : List (α × β)) (k : α) (v : β) :
    mapGet (mapSet m k v) k = some v := by
  induction m with
  | nil => simp [mapSet, mapGet]
  | cons e rest ih =>
    obtain ⟨k', v'⟩ := e
    by_cases h : k' = k
    · subst h; simp [mapSet, mapGet]
    · simp [mapSet, mapGet, h, ih]

theorem mapGet_mapSet_ne {α β : Type} [DecidableEq α]
    (m : List (α × β)) (k k' : α) (v : β) (h : k' ≠ k) :
    mapGet (mapSet m k v) k' = mapGet m k' := by
  induction m with
  | nil => simp [mapSet, mapGet, Ne.symm h]
  | cons e rest ih =>
    obtain ⟨k₀, v₀⟩ := e
    by_cases h₀ : k₀ = k
    · subst h₀; simp [mapSet, mapGet, Ne.symm h]
    · by_cases h₁ : k₀ = k'
      · subst h₁; simp [mapSet, mapGet, h₀]
      · simp [mapSet, mapGet, h₀, h₁, ih]

theorem mapGet_mapSet_isSome {α β : Type} [DecidableEq α]
    (m : List (α × β)) (k k' : α) (v : β) (h : (mapGet m k).isSome) :
    (mapGet (mapSet m k' v) k).isSome := by
  by_cases hk : k = k'
  · subst hk; simp [mapGet_mapSet_self]
  · rw [mapGet_mapSet_ne m k' k v hk]; exact h

theorem mapGet_mapSetIfAbsent_preserve {α β : Type} [DecidableEq α]
    (m : List (α × β)) (k k' : α) (v v' : β) (h : mapGet m k = some v) :
    mapGet (mapSetIfAbsent m k' v') k = some v := by
  unfold mapSetIfAbsent
  cases hg : mapGet m k' with
  | some w => exact h
  | none =>
    by_cases hk : k = k'
    · subst hk; rw [hg] at h; exact absurd h (by simp)
    · rw [mapGet_mapSet_ne m k' k v' hk]; exact h

theorem mapGet_mapSetIfAbsent_none {α β : Type} [DecidableEq α]
    (m : List (α × β)) (k k' : α) (v' : β) (h : mapGet m k = none)
    (hk : k ≠ k') : mapGet (mapSetIfAbsent m k' v') k = none := by
  unfold mapSetIfAbsent
  cases hg : mapGet m k' with
  | some w => exact h
  | none => rw [mapGet_mapSet_ne m k' k v' hk]; exact h

theorem mem_mapSet {α β : Type} [DecidableEq α]
    (m : List (α × β)) (k : α) (v : β) (e : α × β)
    (h : e ∈ mapSet m k v) : e = (k, v) ∨ e ∈ m := by
  induction m with
  | nil => simp [mapSet] at h; simp [h]
  | cons e₀ rest ih =>
    obtain ⟨k₀, v₀⟩ := e₀
    by_cases h₀ : k₀ = k
    · subst h₀
      simp [mapSet] at h
      rcases h with h | h
      · left; simp [h]
      · right; simp [h]
    · simp [mapSet, h₀] at h
      rcases h with h | h
      · right; simp [h]
      · rcases ih h with h' | h'
        · left; exact h'
        · right; simp [h']

/-! ## The secondary indexing pass never displaces an existing entry -/

theorem secondaryStep_preserve (m : OrgCache) (e : String × dsVal)
    (k : String) (v : dsVal) (h : mapGet m k = some v) :
    mapGet (secondaryStep m e) k = some v := by
  unfold secondaryStep
  exact mapGet_mapSetIfAbsent_preserve _ _ _ _ _
    (mapGet_mapSetIfAbsent_preserve _ _ _ _ _ h)

theorem foldl_secondaryStep_preserve (l : List (String × dsVal))
    (m : OrgCache) (k : String) (v : dsVal) (h : mapGet m k = some v) :
    mapGet (List.foldl secondaryStep m l) k = some v := by
  induction l generalizing m with
  | nil => exact h
  | cons e rest ih =>
    simp only [List.foldl_cons]
    exact ih _ (secondaryStep_preserve m e k v h)

theorem foldl_secondaryStep_none (l : List (String × dsVal))
    (m : OrgCache) (k : String) (h : mapGet m k = none)
    (hl : ∀ e ∈ l, toString e.2.internalID ≠ k ∧ e.2.name ≠ k) :
    mapGet (List.foldl secondaryStep m l) k = none := by
  induction l generalizing m with
  | nil => exact h
  | cons e rest ih =>
    simp only [List.foldl_cons]
    have he := hl e (by simp)
    have h1 : mapGet (secondaryStep m e) k = none := by
      unfold secondaryStep
      exact mapGet_mapSetIfAbsent_none _ _ _ _
        (mapGet_mapSetIfAbsent_none _ _ _ _ h (Ne.symm he.1)) (Ne.symm he.2)
    exact ih _ h1 (fun e' he' => hl e' (by simp [he']))

/-! ## Facts about `finalizeOrg` -/

theorem mapGet_finalizeOrg_gds (dd : List (Int × dsVal)) (T : Int)
    (m : OrgCache) :
    mapGet (finalizeOrg dd T m) DatasourceUID = some gds := by
  unfold finalizeOrg finalizeOrgWith
  have h1 : mapGet (mapSet (mapSet (List.foldl secondaryStep m m) gds.uid gds)
      "" ((mapGet dd T).getD gds)) DatasourceUID = some gds := by
    rw [mapGet_mapSet_ne _ _ _ _ (by simp [gds, DatasourceUID])]
    exact mapGet_mapSet_self _ _ _
  cases hg : mapGet (mapSet (mapSet (List.foldl secondaryStep m m) gds.uid gds)
      "" ((mapGet dd T).getD gds)) "default" with
  | some w => simpa [hg] using h1
  | none =>
    simp only [hg]
    rw [mapGet_mapSet_ne _ _ _ _ (by simp [DatasourceUID])]
    exact h1

theorem mapGet_finalizeOrg_empty (dd : List (Int × dsVal)) (T : Int)
    (m : OrgCache) :
    mapGet (finalizeOrg dd T m) "" = some ((mapGet dd T).getD gds) := by
  unfold finalizeOrg finalizeOrgWith
  have h1 : mapGet (mapSet (mapSet (List.foldl secondaryStep m m) gds.uid gds)
      "" ((mapGet dd T).getD gds)) "" = some ((mapGet dd T).getD gds) :=
    mapGet_mapSet_self _ _ _
  cases hg : mapGet (mapSet (mapSet (List.foldl secondaryStep m m) gds.uid gds)
      "" ((mapGet dd T).getD gds)) "default" with
  | some w => simpa [hg] using h1
  | none =>
    simp only [hg]
    rw [mapGet_mapSet_ne _ _ _ _ (by simp)]
    exact h1

theorem mapGet_finalizeOrg_default (dd : List (Int × dsVal)) (T : Int)
    (m : OrgCache)
    (hm : mapGet m "default" = none)
    (hvals : ∀ e ∈ m, toString e.2.internalID ≠ "default" ∧
      e.2.name ≠ "default") :
    mapGet (finalizeOrg dd T m) "default" = some ((mapGet dd T).getD gds) := by
  unfold finalizeOrg finalizeOrgWith
  have h1 : mapGet (List.foldl secondaryStep m m) "default" = none :=
    foldl_secondaryStep_none m m "default" hm hvals
  have h2 : mapGet (mapSet (mapSet (List.foldl secondaryStep m m) gds.uid gds)
      "" ((mapGet dd T).getD gds)) "default" = none := by
    rw [mapGet_mapSet_ne _ _ _ _ (by simp)]
    rw [mapGet_mapSet_ne _ _ _ _ (by simp [gds, DatasourceUID])]
    exact h1
  simp only [h2]
  exact mapGet_mapSet_self _ _ _

/-! ## Facts about the first loop of `check` -/

theorem foldl_primaryStep_isSome (env : Env) (records : List DataSource)
    (init : Cache × List (Int × dsVal)) (T : Int)
    (h : (mapGet init.1 T).isSome) :
    (mapGet (List.foldl (primaryStep env) init records).1 T).isSome := by
  induction records generalizing init with
  | nil => exact h
  | cons r rest ih =>
    simp only [List.foldl_cons]
    exact ih _ (mapGet_mapSet_isSome _ _ _ _ h)

theorem foldl_primaryStep_present (env : Env) (records : List DataSource)
    (init : Cache × List (Int × dsVal)) (T : Int)
    (h : ∃ r ∈ records, r.orgId = T) :
    (mapGet (List.foldl (primaryStep env) init records).1 T).isSome := by
  induction records generalizing init with
  | nil => exact absurd h (by simp)
  | cons r rest ih =>
    simp only [List.foldl_cons]
    by_cases hr : r.orgId = T
    · apply foldl_primaryStep_isSome
      show (mapGet (mapSet init.1 r.orgId _) T).isSome
      rw [hr, mapGet_mapSet_self]
      rfl
    · apply ih
      rcases h with ⟨r', hm, ho⟩
      rcases List.mem_cons.mp hm with h' | h'
      · exact absurd (h' ▸ ho) hr
      · exact ⟨r', h', ho⟩

theorem foldl_primaryStep_absent (env : Env) (records : List DataSource)
    (init : Cache × List (Int × dsVal)) (T : Int)
    (h : mapGet init.1 T = none) (hr : ∀ r ∈ records, r.orgId ≠ T) :
    mapGet (List.foldl (primaryStep env) init records).1 T = none := by
  induction records generalizing init with
  | nil => exact h
  | cons r rest ih =>
    simp only [List.foldl_cons]
    apply ih
    · show mapGet (mapSet init.1 r.orgId _) T = none
      rw [mapGet_mapSet_ne _ _ _ _ (fun hh => hr r (by simp) hh.symm)]
      exact h
    · exact fun r' h' => hr r' (by simp [h'])

theorem foldl_primaryStep_orgKey_none (env : Env) (records : List DataSource)
    (init : Cache × List (Int × dsVal)) (T : Int) (k : String)
    (hinit : ∀ m, mapGet init.1 T = some m → mapGet m k = none)
    (hrec : ∀ r ∈ records, r.orgId = T → r.uid ≠ k) :
    ∀ m, mapGet (List.foldl (primaryStep env) init records).1 T = some m →
      mapGet m k = none := by
  induction records generalizing init with
  | nil => exact hinit
  | cons r rest ih =>
    simp only [List.foldl_cons]
    apply ih
    · intro m hm
      by_cases hr : r.orgId = T
      · subst hr
        rw [show (primaryStep env init r).1
            = mapSet init.1 r.orgId
                (mapSet ((mapGet init.1 r.orgId).getD []) (mkVal env r).uid
                  (mkVal env r)) from rfl, mapGet_mapSet_self] at hm
        have huid : (mkVal env r).uid ≠ k := hrec r (by simp) rfl
        rw [← Option.some_inj.mp hm,
          mapGet_mapSet_ne _ _ _ _ (Ne.symm huid)]
        cases h0 : mapGet init.1 r.orgId with
        | none => simp [h0, mapGet]
        | some m0 =>
          simp only [h0, Option.getD_some]
          exact hinit m0 h0
      · rw [show (primaryStep env init r).1
            = mapSet init.1 r.orgId
                (mapSet ((mapGet init.1 r.orgId).getD []) (mkVal env r).uid
                  (mkVal env r)) from rfl,
          mapGet_mapSet_ne _ _ _ _ (fun hh => hr hh.symm)] at hm
        exact hinit m hm
    · exact fun r' h' => hrec r' (by simp [h'])

theorem foldl_primaryStep_orgVals (env : Env) (records : List DataSource)
    (init : Cache × List (Int × dsVal)) (T : Int) (Q : dsVal → Prop)
    (hinit : ∀ m, mapGet init.1 T = some m → ∀ e ∈ m, Q e.2)
    (hrec : ∀ r ∈ records, r.orgId = T → Q (mkVal env r)) :
    ∀ m, mapGet (List.foldl (primaryStep env) init records).1 T = some m →
      ∀ e ∈ m, Q e.2 := by
  induction records generalizing init with
  | nil => exact hinit
  | cons r rest ih =>
    simp only [List.foldl_cons]
    apply ih
    · intro m hm e he
      by_cases hr : r.orgId = T
      · subst hr
        rw [show (primaryStep env init r).1
            = mapSet init.1 r.orgId
                (mapSet ((mapGet init.1 r.orgId).getD []) (mkVal env r).uid
                  (mkVal env r)) from rfl, mapGet_mapSet_self] at hm
        rw [← Option.some_inj.mp hm] at he
        rcases mem_mapSet _ _ _ _ he with h' | h'
        · rw [h']; exact hrec r (by simp) rfl
        · cases h0 : mapGet init.1 r.orgId with
          | none => rw [h0] at h'; simp at h'
          | some m0 =>
            rw [h0] at h'
            exact hinit m0 h0 e h'
      · rw [show (primaryStep env init r).1
            = mapSet init.1 r.orgId
                (mapSet ((mapGet init.1 r.orgId).getD []) (mkVal env r).uid
                  (mkVal env r)) from rfl,
          mapGet_mapSet_ne _ _ _ _ (fun hh => hr hh.symm)] at hm
        exact hinit m hm e he
    · exact fun r' h' => hrec r' (by simp [h'])

theorem foldl_primaryStep_default (env : Env) (records : List DataSource)
    (init : Cache × List (Int × dsVal)) (T : Int) :
    mapGet (List.foldl (primaryStep env) init records).2 T =
      (lastDefault env T records).or (mapGet init.2 T) := by
  induction records generalizing init with
  | nil => simp [lastDefault]
  | cons r rest ih =>
    simp only [List.foldl_cons, lastDefault]
    rw [ih]
    cases hl : lastDefault env T rest with
    | some v => simp
    | none =>
      simp only [Option.none_or]
      by_cases hd : r.isDefault
      · by_cases hr : r.orgId = T
        · subst hr
          rw [show (primaryStep env init r).2
              = mapSet init.2 r.orgId (mkVal env r) from by
                simp [primaryStep, mkVal, hd], mapGet_mapSet_self]
          simp [hd]
        · rw [show (primaryStep env init r).2
              = mapSet init.2 r.orgId (mkVal env r) from by
                simp [primaryStep, mkVal, hd],
            mapGet_mapSet_ne _ _ _ _ (fun hh => hr hh.symm)]
          simp [hr, hd]
      · rw [show (primaryStep env init r).2 = init.2 from by
          simp [primaryStep, mkVal, hd]]
        simp [hd]

/-! ## Reading the built snapshot and the two paths of `getDS` -/

theorem mapGet_map_finalize (c : Cache) (dd : List (Int × dsVal)) (T : Int) :
    mapGet (c.map (fun p => (p.1, finalizeOrg dd p.1 p.2))) T =
      (mapGet c T).map (finalizeOrg dd T) := by
  induction c with
  | nil => simp [mapGet]
  | cons e rest ih =>
    obtain ⟨k, v⟩ := e
    by_cases h : k = T
    · subst h; simp [mapGet]
    · simp [mapGet, h, ih]

theorem mapGet_buildCache (env : Env) (records : List DataSource) (T : Int) :
    mapGet (buildCache env records) T =
      (mapGet (List.foldl (primaryStep env) ([], []) records).1 T).map
        (finalizeOrg (List.foldl (primaryStep env) ([], []) records).2 T) := by
  unfold buildCache
  exact mapGet_map_finalize _ _ _

theorem checkSeq_ok (σ : CacheState) (env : Env) (records : List DataSource)
    (now : Int) (hcat : env.catalog = Except.ok records) :
    checkSeq σ env now =
      (none, { cache := some (buildCache env records), timestamp := now }, 1) := by
  unfold checkSeq check
  rw [if_neg (by simp), hcat]

theorem checkSeq_fail (σ : CacheState) (env : Env) (e : String) (now : Int)
    (hcat : env.catalog = Except.error e) :
    checkSeq σ env now = (some e, σ, 1) := by
  unfold checkSeq check
  rw [if_neg (by simp), hcat]

theorem getDS_of_refresh (σ : CacheState) (env : Env) (now : Int) (T : Int)
    (uid : String) (h : σ.cache = none ∨ σ.timestamp < now - 60) :
    getDS σ env now T uid =
      (lookupSnap (checkSeq σ env now).2.1 T uid, (checkSeq σ env now).1,
        (checkSeq σ env now).2.1, (checkSeq σ env now).2.2) := by
  unfold getDS checkSeq
  rw [if_pos h]
  rcases hc : check σ.timestamp σ env now with ⟨err, σ', n⟩
  simp only [hc]
  unfold lookupSnap
  cases hs : σ'.cache with
  | none => simp [hs]
  | some c =>
    cases hm : mapGet c T with
    | none => simp [hs, hm]
    | some oc =>
      cases hu : mapGet oc uid with
      | none => simp [hs, hm, hu]
      | some d => simp [hs, hm, hu]

theorem getDS_of_fresh (σ : CacheState) (env : Env) (now : Int) (T : Int)
    (uid : String) (h : ¬(σ.cache = none ∨ σ.timestamp < now - 60)) :
    getDS σ env now T uid = (lookupSnap σ T uid, none, σ, 0) := by
  unfold getDS
  rw [if_neg h]
  unfold lookupSnap
  cases hs : σ.cache with
  | none => simp [hs]
  | some c =>
    cases hm : mapGet c T with
    | none => simp [hs, hm]
    | some oc =>
      cases hu : mapGet oc uid with
      | none => simp [hs, hm, hu]
      | some d => simp [hs, hm, hu]

theorem lookupSnap_some (c : Cache) (ts T : Int) (uid : String) :
    lookupSnap { cache := some c, timestamp := ts } T uid =
      match mapGet c T with
      | none => none
      | some oc => mapGet oc uid := rfl

theorem mapGet_buildCache_present (env : Env) (records : List DataSource)
    (T : Int) (hT : ∃ r ∈ records, r.orgId = T) :
    ∃ m, mapGet (List.foldl (primaryStep env) ([], []) records).1 T = some m ∧
      mapGet (buildCache env records) T =
        some (finalizeOrg (List.foldl (primaryStep env) ([], []) records).2 T
          m) := by
  have h := foldl_primaryStep_present env records ([], []) T hT
  rcases Option.isSome_iff_exists.mp h with ⟨m, hm⟩
  exact ⟨m, hm, by rw [mapGet_buildCache, hm]; rfl⟩

theorem mapGet_buildCache_absent (env : Env) (records : List DataSource)
    (T : Int) (hT : ∀ r ∈ records, r.orgId ≠ T) :
    mapGet (buildCache env records) T = none := by
  rw [mapGet_buildCache,
    foldl_primaryStep_absent env records ([], []) T rfl hT]
  rfl

/-! ## The claims -/

/-- C3: if the Catalog Source query fails, `check` returns exactly that
error and leaves the snapshot and the timestamp unchanged, so a
subsequent `getDS` serves the previous descriptors unchanged. -/
theorem checkFail_preserves_snapshot (σ : CacheState) (env : Env)
    (e : String) (now : Int) (hcat : env.catalog = Except.error e) :
    checkSeq σ env now = (some e, σ, 1) ∧
    ∀ T uid, (getDS σ env now T uid).1 = lookupSnap σ T uid ∧
      (getDS σ env now T uid).2.2.1 = σ := by
  refine ⟨checkSeq_fail σ env e now hcat, fun T uid => ?_⟩
  by_cases h : σ.cache = none ∨ σ.timestamp < now - 60
  · rw [getDS_of_refresh σ env now T uid h, checkSeq_fail σ env e now hcat]
    exact ⟨rfl, rfl⟩
  · rw [getDS_of_fresh σ env now T uid h]
    exact ⟨rfl, rfl⟩

/-- Witness for C3 at the populated snapshot `popState` and the failing
catalog `envFail`. -/
theorem checkFail_preserves_snapshot_witness :
    envFail.catalog = Except.error "boom" ∧
    (getDS popState envFail 1000 1 "abc").1 = lookupSnap popState 1 "abc" :=
  ⟨rfl,
    ((checkFail_preserves_snapshot popState envFail "boom" 1000 rfl).2
      1 "abc").1⟩

/-- C6: `getDS` issues exactly one catalog query when no snapshot exists
or the held one is more than a minute old, and none otherwise. -/
theorem getDS_query_count (σ : CacheState) (env : Env) (now : Int)
    (T : Int) (uid : String) :
    (getDS σ env now T uid).2.2.2 =
      if σ.cache = none ∨ σ.timestamp < now - 60 then 1 else 0 := by
  by_cases h : σ.cache = none ∨ σ.timestamp < now - 60
  · rw [getDS_of_refresh σ env now T uid h, if_pos h]
    show (checkSeq σ env now).2.2 = 1
    unfold checkSeq check
    rw [if_neg (by simp)]
    cases hc : env.catalog <;> simp [hc]
  · rw [getDS_of_fresh σ env now T uid h, if_neg h]

/-- C7: when the live timestamp no longer matches the one captured
before the mutex was requested, `check` returns success at once,
querying nothing and changing nothing. -/
theorem check_stale_timestamp_early_return (old : Int) (σ : CacheState)
    (env : Env) (now : Int) (h : σ.timestamp ≠ old) :
    check old σ env now = (none, σ, 0) := by
  unfold check
  rw [if_pos h]

/-- Witness for C7: a caller that captured timestamp 1 while the live
one is 100 returns at once, even against a failing catalog. -/
theorem check_stale_timestamp_early_return_witness :
    freshEmptyState.timestamp ≠ 1 ∧
    check 1 freshEmptyState envFail 0 = (none, freshEmptyState, 0) :=
  ⟨by decide,
    check_stale_timestamp_early_return 1 freshEmptyState envFail 0 (by decide)⟩

/-- C8: the secondary indexing pass files entries with insert-if-absent
only, so a key already present in the tenant's index (a uid entry or an
earlier secondary entry) keeps its value through the whole pass. -/
theorem secondary_pass_never_overwrites (l : List (String × dsVal))
    (m : OrgCache) (k : String) (v : dsVal) (h : mapGet m k = some v) :
    mapGet (List.foldl secondaryStep m l) k = some v :=
  foldl_secondaryStep_preserve l m k v h

/-- Witness for C8: the uid entry `"abc"` survives a pass over a record
whose name collides with it. -/
theorem secondary_pass_never_overwrites_witness :
    mapGet [("abc", gds)] "abc" = some gds ∧
    mapGet (List.foldl secondaryStep [("abc", gds)]
      [("u", { internalID := 9, isDefault := false, name := "abc",
               type := "x", uid := "u", pluginExists := true })])
      "abc" = some gds :=
  ⟨by decide,
    secondary_pass_never_overwrites
      [("u", { internalID := 9, isDefault := false, name := "abc",
               type := "x", uid := "u", pluginExists := true })]
      [("abc", gds)] "abc" gds (by decide)⟩

theorem checkSeq_eq_ordIns (σ : CacheState) (env : Env) (now : Int) :
    checkSeq σ env now = checkSeqWith ordIns σ env now := rfl

theorem checkSeqWith_ok (ord : Int → OrgCache → List (String × dsVal))
    (σ : CacheState) (env : Env) (records : List DataSource) (now : Int)
    (hcat : env.catalog = Except.ok records) :
    checkSeqWith ord σ env now =
      (none, { cache := some (buildCacheWith ord env records),
               timestamp := now }, 1) := by
  unfold checkSeqWith checkWith
  rw [if_neg (by simp), hcat]

theorem checkSeqWith_fail (ord : Int → OrgCache → List (String × dsVal))
    (σ : CacheState) (env : Env) (e : String) (now : Int)
    (hcat : env.catalog = Except.error e) :
    checkSeqWith ord σ env now = (some e, σ, 1) := by
  unfold checkSeqWith checkWith
  rw [if_neg (by simp), hcat]

/-- C9 counterexample: with two records of tenant 1 both named `"dup"`,
a rebuild whose secondary pass visits the org's entries in insertion
order files the first record under `"dup"`, while an immediately
following rebuild of the unchanged catalog whose pass visits them in
the reverse order (both admissible Go map iteration orders) files the
second record there — the two successive snapshots differ in value at
key `"dup"`. -/
theorem check_idempotent_cex :
    lookupSnap (checkSeqWith ordRev
        (checkSeqWith ordIns initState envDup 1000).2.1
        envDup 2000).2.1 1 "dup" ≠
      lookupSnap (checkSeqWith ordIns initState envDup 1000).2.1 1 "dup" := by
  decide

/-- C9 (amended): a rebuild is a pure function of the catalog result,
the plugin oracle and the per-org iteration order of the secondary
pass, so two `check` calls in immediate succession against an unchanged
catalog yield value-equal snapshots whenever both passes visit each
org's entries in the same order; with Go's unspecified map iteration,
different orders can make the snapshots differ at a collided secondary
key (see the counterexample). -/
theorem check_idempotent_same_order
    (ord : Int → OrgCache → List (String × dsVal)) (σ : CacheState)
    (env : Env) (now1 now2 : Int) :
    ((checkSeqWith ord (checkSeqWith ord σ env now1).2.1 env now2).2.1).cache
      = ((checkSeqWith ord σ env now1).2.1).cache := by
  cases hc : env.catalog with
  | error e =>
    rw [checkSeqWith_fail ord σ env e now1 hc]
    rw [checkSeqWith_fail ord _ env e now2 hc]
  | ok records =>
    rw [checkSeqWith_ok ord σ env records now1 hc]
    rw [checkSeqWith_ok ord _ env records now2 hc]

/-- C10: the error `getDS` returns is exactly the outcome of the refresh
it triggered (nil when none was triggered), independent of the tenant
and identifier looked up. -/
theorem getDS_error_independent_of_lookup (σ : CacheState) (env : Env)
    (now : Int) (T T' : Int) (uid uid' : String) :
    (getDS σ env now T uid).2.1 =
      (if σ.cache = none ∨ σ.timestamp < now - 60
        then (checkSeq σ env now).1 else none) ∧
    (getDS σ env now T uid).2.1 = (getDS σ env now T' uid').2.1 := by
  have key : ∀ (S : Int) (u : String), (getDS σ env now S u).2.1 =
      (if σ.cache = none ∨ σ.timestamp < now - 60
        then (checkSeq σ env now).1 else none) := by
    intro S u
    by_cases h : σ.cache = none ∨ σ.timestamp < now - 60
    · rw [getDS_of_refresh σ env now S u h, if_pos h]
    · rw [getDS_of_fresh σ env now S u h, if_neg h]
  exact ⟨key T uid, (key T uid).trans (key T' uid').symm⟩

/-- C1 counterexample: against a fresh snapshot covering no tenant, the
lookup hits the tenant-not-found path, yet the error returned is nil —
`getDS` does not return a typed not-found error. -/
theorem getDS_missing_tenant_nil_error_cex :
    lookupSnap freshEmptyState 1 "x" = none ∧
    getDS freshEmptyState envEmpty 100 1 "x" =
      (none, none, freshEmptyState, 0) := by
  decide

/-- C1 (amended): on the tenant-not-found and identifier-not-found
paths `getDS` returns a nil descriptor, and its error is only the
refresh outcome — nil whenever any triggered refresh succeeded (or none
was triggered), so not-found is signalled by the nil descriptor alone. -/
theorem getDS_notfound_nil_error (σ : CacheState) (env : Env)
    (now : Int) (T : Int) (uid : String)
    (hok : (σ.cache = none ∨ σ.timestamp < now - 60) →
      ∃ records, env.catalog = Except.ok records) :
    (getDS σ env now T uid).2.1 = none ∧
    (getDS σ env now T uid).1 =
      lookupSnap (getDS σ env now T uid).2.2.1 T uid := by
  by_cases h : σ.cache = none ∨ σ.timestamp < now - 60
  · obtain ⟨records, hcat⟩ := hok h
    rw [getDS_of_refresh σ env now T uid h, checkSeq_ok σ env records now hcat]
    exact ⟨rfl, rfl⟩
  · rw [getDS_of_fresh σ env now T uid h]
    exact ⟨rfl, rfl⟩

/-- Witness for C1 (amended) at a fresh snapshot with no tenants. -/
theorem getDS_notfound_nil_error_witness :
    (getDS freshEmptyState envEmpty 100 1 "x").2.1 = none ∧
    (getDS freshEmptyState envEmpty 100 1 "x").1 =
      lookupSnap (getDS freshEmptyState envEmpty 100 1 "x").2.2.1 1 "x" :=
  getDS_notfound_nil_error freshEmptyState envEmpty 100 1 "x"
    (fun h => absurd h (by decide))

/-- C2 counterexample: the refresh against a catalog whose only record
belongs to tenant 1 succeeds, yet `resolve(2, "")` finds no index for
tenant 2 and returns no descriptor, not the synthetic built-in. -/
theorem empty_tenant_no_builtin_cex :
    (checkSeq initState envOk 1000).1 = none ∧
    (getDS initState envOk 1000 2 "").1 = none := by
  decide

/-- C2 (amended): after a successful refresh, every tenant with at
least one catalog record has an index containing the synthetic built-in
descriptor and `resolve(T, "")` returns its default (the last
default-marked record, else the built-in); a tenant with no catalog
records has no index at all, and `resolve(T, "")` returns no
descriptor. -/
theorem builtin_for_tenants_with_records (env : Env)
    (records : List DataSource) (σ : CacheState) (now T : Int)
    (hcat : env.catalog = Except.ok records) (hσ : σ.cache = none) :
    ((∃ r ∈ records, r.orgId = T) →
      lookupSnap (checkSeq σ env now).2.1 T DatasourceUID = some gds ∧
      (getDS σ env now T "").1 =
        some ((lastDefault env T records).getD gds)) ∧
    ((∀ r ∈ records, r.orgId ≠ T) → (getDS σ env now T "").1 = none) := by
  constructor
  · intro hT
    obtain ⟨m, hm, hbc⟩ := mapGet_buildCache_present env records T hT
    have hdval :
        mapGet (List.foldl (primaryStep env) ([], []) records).2 T =
          lastDefault env T records := by
      rw [foldl_primaryStep_default]
      show (lastDefault env T records).or (mapGet [] T) = _
      cases lastDefault env T records <;> rfl
    constructor
    · rw [checkSeq_ok σ env records now hcat]
      show lookupSnap (CacheState.mk (some (buildCache env records)) now)
        T DatasourceUID = some gds
      rw [lookupSnap_some, hbc]
      exact mapGet_finalizeOrg_gds _ _ _
    · rw [getDS_of_refresh σ env now T "" (Or.inl hσ),
        checkSeq_ok σ env records now hcat]
      show lookupSnap (CacheState.mk (some (buildCache env records)) now)
        T "" = _
      rw [lookupSnap_some, hbc]
      show mapGet (finalizeOrg _ T m) "" = _
      rw [mapGet_finalizeOrg_empty, hdval]
  · intro hT
    rw [getDS_of_refresh σ env now T "" (Or.inl hσ),
      checkSeq_ok σ env records now hcat]
    show lookupSnap (CacheState.mk (some (buildCache env records)) now)
      T "" = none
    rw [lookupSnap_some, mapGet_buildCache_absent env records T hT]

/-- Witness for C2 (amended): tenant 1 of the scenario catalog. -/
theorem builtin_for_tenants_with_records_witness :
    lookupSnap (checkSeq initState envOk 1000).2.1 1 DatasourceUID =
      some gds ∧
    (getDS initState envOk 1000 1 "").1 =
      some ((lastDefault envOk 1 [recAbc]).getD gds) :=
  (builtin_for_tenants_with_records envOk [recAbc] initState 1000 1
    rfl rfl).1 ⟨recAbc, by simp, rfl⟩

/-- C4 counterexample: with a catalog where tenant 1 owns a record
literally named `"default"` (not marked default) next to its default
record, `resolve(1, "")` and `resolve(1, "default")` disagree. -/
theorem default_key_collision_cex :
    (getDS initState envTwo 1000 1 "").1 ≠
      (getDS initState envTwo 1000 1 "default").1 := by
  decide

/-- C4 (amended): for every tenant T with at least one catalog record
and none of whose records carries the literal key `"default"` as uid,
name, or stringified internal id, `resolve(T, "")` and
`resolve(T, "default")` return the same descriptor: the (last) catalog
record of T marked default, else the synthetic built-in. -/
theorem empty_and_default_agree (env : Env) (records : List DataSource)
    (σ : CacheState) (now T : Int)
    (hcat : env.catalog = Except.ok records) (hσ : σ.cache = none)
    (hT : ∃ r ∈ records, r.orgId = T)
    (hcol : ∀ r ∈ records, r.orgId = T →
      r.uid ≠ "default" ∧ r.name ≠ "default" ∧ toString r.id ≠ "default") :
    (getDS σ env now T "").1 = (getDS σ env now T "default").1 ∧
    (getDS σ env now T "").1 =
      some ((lastDefault env T records).getD gds) := by
  obtain ⟨m, hm, hbc⟩ := mapGet_buildCache_present env records T hT
  have hdval :
      mapGet (List.foldl (primaryStep env) ([], []) records).2 T =
        lastDefault env T records := by
    rw [foldl_primaryStep_default]
    show (lastDefault env T records).or (mapGet [] T) = _
    cases lastDefault env T records <;> rfl
  have hkey : mapGet m "default" = none :=
    foldl_primaryStep_orgKey_none env records ([], []) T "default"
      (fun m0 hm0 => by simp [mapGet] at hm0)
      (fun r hr ho => (hcol r hr ho).1) m hm
  have hvals : ∀ e ∈ m, toString e.2.internalID ≠ "default" ∧
      e.2.name ≠ "default" :=
    foldl_primaryStep_orgVals env records ([], []) T
      (fun v => toString v.internalID ≠ "default" ∧ v.name ≠ "default")
      (fun m0 hm0 => by simp [mapGet] at hm0)
      (fun r hr ho =>
        ⟨by simpa [mkVal] using (hcol r hr ho).2.2, (hcol r hr ho).2.1⟩)
      m hm
  have hfin1 : mapGet (finalizeOrg
      (List.foldl (primaryStep env) ([], []) records).2 T m) "" =
      some ((lastDefault env T records).getD gds) := by
    rw [mapGet_finalizeOrg_empty, hdval]
  have hfin2 : mapGet (finalizeOrg
      (List.foldl (primaryStep env) ([], []) records).2 T m) "default" =
      some ((lastDefault env T records).getD gds) := by
    rw [mapGet_finalizeOrg_default _ _ _ hkey hvals, hdval]
  rw [getDS_of_refresh σ env now T "" (Or.inl hσ),
    getDS_of_refresh σ env now T "default" (Or.inl hσ),
    checkSeq_ok σ env records now hcat]
  constructor
  · show lookupSnap (CacheState.mk (some (buildCache env records)) now)
      T "" = lookupSnap (CacheState.mk (some (buildCache env records)) now)
        T "default"
    rw [lookupSnap_some, lookupSnap_some, hbc]
    show mapGet (finalizeOrg _ T m) "" = mapGet (finalizeOrg _ T m) "default"
    rw [hfin1, hfin2]
  · show lookupSnap (CacheState.mk (some (buildCache env records)) now)
      T "" = _
    rw [lookupSnap_some, hbc]
    exact hfin1

/-- Witness for C4 (amended): tenant 1 of the scenario catalog, whose
only record is named `Prometheus`. -/
theorem empty_and_default_agree_witness :
    (getDS initState envOk 1000 1 "").1 =
      (getDS initState envOk 1000 1 "default").1 ∧
    (getDS initState envOk 1000 1 "").1 =
      some ((lastDefault envOk 1 [recAbc]).getD gds) :=
  empty_and_default_agree envOk [recAbc] initState 1000 1 rfl rfl
    ⟨recAbc, by simp, rfl⟩ (by decide)

/-- C5 counterexample: against an empty catalog the refresh succeeds,
yet `resolve(1, builtInUID)` fails: a tenant with no catalog records
has no index, so not even the built-in uid resolves for it. -/
theorem builtin_missing_tenant_cex :
    (checkSeq initState envEmpty 1000).1 = none ∧
    (getDS initState envEmpty 1000 1 DatasourceUID).1 = none := by
  decide

/-- C5 (amended): for every tenant with at least one catalog record,
`resolve(T, builtInUID)` returns the synthetic built-in descriptor,
whose `pluginExists` is true — regardless of what the records say. -/
theorem builtin_uid_resolves_with_plugin (env : Env)
    (records : List DataSource) (σ : CacheState) (now T : Int)
    (hcat : env.catalog = Except.ok records) (hσ : σ.cache = none)
    (hT : ∃ r ∈ records, r.orgId = T) :
    (getDS σ env now T DatasourceUID).1 = some gds ∧
    gds.pluginExists = true := by
  obtain ⟨m, hm, hbc⟩ := mapGet_buildCache_present env records T hT
  rw [getDS_of_refresh σ env now T DatasourceUID (Or.inl hσ),
    checkSeq_ok σ env records now hcat]
  refine ⟨?_, rfl⟩
  show lookupSnap (CacheState.mk (some (buildCache env records)) now)
    T DatasourceUID = some gds
  rw [lookupSnap_some, hbc]
  exact mapGet_finalizeOrg_gds _ _ _

/-- Witness for C5 (amended): tenant 1 of the scenario catalog. -/
theorem builtin_uid_resolves_with_plugin_witness :
    (getDS initState envOk 1000 1 DatasourceUID).1 = some gds ∧
    gds.pluginExists = true :=
  builtin_uid_resolves_with_plugin envOk [recAbc] initState 1000 1
    rfl rfl ⟨recAbc, by simp, rfl⟩

end Resolver
